import Mathlib

/-!
Verification of the scale-quantizer module (`scales.h`): a fixed tuning
table of PWM calibration values, one per semitone, and three pure
functions that snap an input note index to the nearest scale member at
or above its semitone within the same octave.

The C code works on non-negative `int` inputs (the documented domain is
`0 .. totalNotes-1`), where C integer division and modulus agree with
natural-number division and modulus, so the embedding uses `Nat` for
indices and `Int` for the table's calibration values.
-/

/-- Measured PWM values for semitones (C to B over 3 octaves + C),
transcribed from the `tuningValues[]` array in `scales.h`. -/
def tuningValues : List Int :=
  [0, 11, 15, 19, 23, 27, 31, 35, 40, 44, 48, 53,
   57, 61, 65, 69, 73, 77, 82, 86, 90, 94, 99, 103,
   107, 112, 116, 120, 124, 128, 132, 137, 141, 145, 149, 153,
   157]

/-- Number of entries of the tuning table, as computed in the source by
`sizeof(tuningValues) / sizeof(tuningValues[0])`. -/
def totalNotes : Nat := tuningValues.length

/-- C major scale degrees (`majorSteps[]` in `quantizeToMajor`). -/
def majorSteps : List Nat := [0, 2, 4, 5, 7, 9, 11]

/-- C natural minor scale degrees (`minorSteps[]` in `quantizeToMinor`). -/
def minorSteps : List Nat := [0, 2, 3, 5, 7, 8, 10]

/-- Phrygian mode scale degrees (`phrygianSteps[]` in `quantizeToPhrygian`). -/
def phrygianSteps : List Nat := [0, 1, 3, 5, 7, 8, 10]

/-- Fallback offset of `quantizeToMajor`: the literal `11` in its
post-loop `return tuningValues[(octave * 12) + 11]`. -/
def majorFallback : Nat := 11

/-- Fallback offset of `quantizeToMinor`: the literal `10` in its
post-loop `return tuningValues[(octave * 12) + 10]`. -/
def minorFallback : Nat := 10

/-- Fallback offset of `quantizeToPhrygian`: the literal `10` in its
post-loop `return tuningValues[(octave * 12) + 10]`. -/
def phrygianFallback : Nat := 10

/-- The scan loop shared by the three quantizers:
`for (i = 0; i < 7; i++) if (semitone <= steps[i]) return ...` returns at
the first step with `semitone <= steps[i]`; `none` models reaching the end
of the loop without returning. -/
def scanSteps (steps : List Nat) (semitone : Nat) : Option Nat :=
  steps.find? (fun o => decide (semitone ≤ o))

/-- The tuning-table index a quantizer reads for input `val`, given its
step list and its post-loop fallback offset: `(octave * 12) + steps[i]`
when the loop returns at step `i`, and `(octave * 12) + fallback` when
the loop falls through. -/
def quantIndex (steps : List Nat) (fallback : Nat) (val : Nat) : Nat :=
  let octave := val / 12
  let semitone := val % 12
  match scanSteps steps semitone with
  | some o => octave * 12 + o
  | none => octave * 12 + fallback

/-- `quantizeToMajor` from `scales.h`: the table read is modelled with
`List.getD` (in-range reads, which the safety claims establish, are
unaffected by the default). -/
def quantizeToMajor (val : Nat) : Int :=
  tuningValues.getD (quantIndex majorSteps majorFallback val) 0

/-- `quantizeToMinor` from `scales.h`. -/
def quantizeToMinor (val : Nat) : Int :=
  tuningValues.getD (quantIndex minorSteps minorFallback val) 0

/-- `quantizeToPhrygian` from `scales.h`. -/
def quantizeToPhrygian (val : Nat) : Int :=
  tuningValues.getD (quantIndex phrygianSteps phrygianFallback val) 0

/-- Spec-side offset choice, following the specification's words rather
than the code: the smallest offset in the scale's offset set that is
greater than or equal to the semitone when one exists, and otherwise the
largest offset in the scale's offset set. -/
def specOffset (steps : List Nat) (semitone : Nat) : Nat :=
  match (steps.filter (fun o => decide (semitone ≤ o))).min? with
  | some m => m
  | none => (steps.max?).getD 0

/-- C1: for every `val` in `[0, totalNotes-1]`, each of the three
quantizers returns the tuning-table entry at `octave*12 + o`, where `o`
is the smallest offset of the scale's offset set that is at least the
semitone when one exists, and otherwise the largest offset of the set. -/
theorem quantizers_match_specOffset :
    ∀ val < totalNotes,
      quantizeToMajor val =
        tuningValues.getD (val / 12 * 12 + specOffset majorSteps (val % 12)) 0 ∧
      quantizeToMinor val =
        tuningValues.getD (val / 12 * 12 + specOffset minorSteps (val % 12)) 0 ∧
      quantizeToPhrygian val =
        tuningValues.getD (val / 12 * 12 + specOffset phrygianSteps (val % 12)) 0 := by
  decide

/-- Witness for C1 at `val = 11`, the fallback case of the minor scale. -/
theorem quantizers_match_specOffset_witness :
    quantizeToMinor 11 =
      tuningValues.getD (11 / 12 * 12 + specOffset minorSteps (11 % 12)) 0 :=
  (quantizers_match_specOffset 11 (by decide)).2.1

/-- C2: for every `val` in `[0, totalNotes-1]`, the tuning-table index
each quantizer reads lies in `[0, totalNotes-1]`, and the returned value
is the table entry at that valid index. -/
theorem quantizer_reads_in_bounds :
    ∀ val < totalNotes,
      (quantIndex majorSteps majorFallback val < totalNotes ∧
        quantizeToMajor val =
          tuningValues.getD (quantIndex majorSteps majorFallback val) 0) ∧
      (quantIndex minorSteps minorFallback val < totalNotes ∧
        quantizeToMinor val =
          tuningValues.getD (quantIndex minorSteps minorFallback val) 0) ∧
      (quantIndex phrygianSteps phrygianFallback val < totalNotes ∧
        quantizeToPhrygian val =
          tuningValues.getD (quantIndex phrygianSteps phrygianFallback val) 0) := by
  decide

/-- Witness for C2 at the top of the range, `val = totalNotes - 1 = 36`. -/
theorem quantizer_reads_in_bounds_witness :
    quantIndex majorSteps majorFallback 36 < totalNotes :=
  ((quantizer_reads_in_bounds 36 (by decide)).1).1

/-- C3 counterexample: `quantizeToMajor 1` does not return `11`; semitone
1 rounds up to offset 2, whose table entry is `15`. -/
theorem quantizeToMajor_one_ne_eleven : quantizeToMajor 1 ≠ 11 := by decide

/-- C3 amended: `quantizeToMajor 1` returns `15` (the table entry at
index 2, as the spec's own algorithm and the code compute). -/
theorem quantizeToMajor_one_eq_fifteen : quantizeToMajor 1 = 15 := by decide

/-- C4: for every `val` in `[0, totalNotes-1]`, whenever `val % 12` is a
member of a scale's offset set, that scale's quantizer returns the table
entry at `val` itself; in particular `quantizeToMajor 0 = 0` and
`quantizeToPhrygian 12 = 57`. -/
theorem quantizer_exact_match :
    (∀ val < totalNotes,
      (val % 12 ∈ majorSteps → quantizeToMajor val = tuningValues.getD val 0) ∧
      (val % 12 ∈ minorSteps → quantizeToMinor val = tuningValues.getD val 0) ∧
      (val % 12 ∈ phrygianSteps → quantizeToPhrygian val = tuningValues.getD val 0)) ∧
    quantizeToMajor 0 = 0 ∧ quantizeToPhrygian 12 = 57 := by
  decide

/-- Witness for C4 at `val = 0`: semitone 0 is a major scale member. -/
theorem quantizer_exact_match_witness :
    quantizeToMajor 0 = tuningValues.getD 0 0 :=
  ((quantizer_exact_match.1 0 (by decide)).1) (by decide)

/-- Bounded form of C5, settled by evaluation: within each of the three
full octaves, each quantizer is monotone in the semitone. -/
theorem quantizer_octave_mono_aux :
    ∀ k < 3, ∀ t < 12, ∀ s < 12, s ≤ t →
      quantizeToMajor (12 * k + s) ≤ quantizeToMajor (12 * k + t) ∧
      quantizeToMinor (12 * k + s) ≤ quantizeToMinor (12 * k + t) ∧
      quantizeToPhrygian (12 * k + s) ≤ quantizeToPhrygian (12 * k + t) := by
  decide

/-- C5: for each quantizer and every octave `k` whose full semitone block
`12*k .. 12*k+11` lies in `[0, totalNotes-1]`, the returned values over
that block form a non-decreasing sequence. -/
theorem quantizer_octave_monotone (k s t : Nat)
    (hk : 12 * k + 11 < totalNotes) (hst : s ≤ t) (ht : t ≤ 11) :
    quantizeToMajor (12 * k + s) ≤ quantizeToMajor (12 * k + t) ∧
    quantizeToMinor (12 * k + s) ≤ quantizeToMinor (12 * k + t) ∧
    quantizeToPhrygian (12 * k + s) ≤ quantizeToPhrygian (12 * k + t) := by
  have h37 : totalNotes = 37 := by decide
  exact quantizer_octave_mono_aux k (by omega) t (by omega) s (by omega) hst

/-- Witness for C5 across the whole first octave. -/
theorem quantizer_octave_monotone_witness :
    quantizeToMajor (12 * 0 + 0) ≤ quantizeToMajor (12 * 0 + 11) ∧
    quantizeToMinor (12 * 0 + 0) ≤ quantizeToMinor (12 * 0 + 11) ∧
    quantizeToPhrygian (12 * 0 + 0) ≤ quantizeToPhrygian (12 * 0 + 11) :=
  quantizer_octave_monotone 0 0 11 (by decide) (by decide) (by decide)

/-- C6: the three quantizers use exactly the offset sets of the major,
natural minor and Phrygian scales; each list is strictly increasing with
7 distinct entries in `[0, 11]`, and each quantizer's fallback offset is
its own scale's maximum element. -/
theorem scale_step_sets :
    majorSteps = [0, 2, 4, 5, 7, 9, 11] ∧
    minorSteps = [0, 2, 3, 5, 7, 8, 10] ∧
    phrygianSteps = [0, 1, 3, 5, 7, 8, 10] ∧
    (∀ l ∈ [majorSteps, minorSteps, phrygianSteps],
      l.length = 7 ∧ l.Nodup ∧ (∀ o ∈ l, o ≤ 11) ∧
      (∀ i < l.length - 1, l.getD i 0 < l.getD (i + 1) 0)) ∧
    majorFallback = (majorSteps.max?).getD 0 ∧
    minorFallback = (minorSteps.max?).getD 0 ∧
    phrygianFallback = (phrygianSteps.max?).getD 0 := by
  decide

/-- Witness for C6: the major step list satisfies the shared invariants. -/
theorem scale_step_sets_witness : majorSteps.length = 7 :=
  ((scale_step_sets.2.2.2.1) majorSteps (by decide)).1

/-- C7: the tuning table has exactly 37 entries, three octaves of 12
semitones plus one extra note; its entries are non-decreasing; and
`totalNotes` equals 37, the length of the table. -/
theorem tuning_table_shape :
    tuningValues.length = 37 ∧
    totalNotes = 37 ∧
    totalNotes = tuningValues.length ∧
    totalNotes = 3 * 12 + 1 ∧
    totalNotes % 12 = 1 ∧
    (∀ i < totalNotes - 1, tuningValues.getD i 0 ≤ tuningValues.getD (i + 1) 0) := by
  decide

/-- Witness for C7: the first adjacent pair of the table is ordered. -/
theorem tuning_table_shape_witness :
    tuningValues.getD 0 0 ≤ tuningValues.getD 1 0 :=
  tuning_table_shape.2.2.2.2.2 0 (by decide)

/-- Every semitone below 12 makes the major scan loop return. -/
theorem major_scan_aux : ∀ s < 12, (scanSteps majorSteps s).isSome = true := by
  decide

/-- C8: for every input `val`, the semitone `val % 12` is at most 11, so
the scan loop of `quantizeToMajor` returns at some offset (the last major
offset being 11) and the post-loop fallback return is unreachable. -/
theorem major_scan_always_returns (val : Nat) :
    val % 12 ≤ 11 ∧ (scanSteps majorSteps (val % 12)).isSome = true := by
  have h : val % 12 < 12 := Nat.mod_lt val (by decide)
  exact ⟨by omega, major_scan_aux (val % 12) h⟩

/-- C9: for every in-range `val` with semitone 11, `quantizeToMinor` and
`quantizeToPhrygian` fall back to offset 10, i.e. the table entry at
`val - 1`, strictly below the entry at `val`; at every other in-range
input all three quantizers, and `quantizeToMajor` even at semitone 11,
return at least the entry at `val`. -/
theorem top_semitone_rounds_down :
    ∀ val < totalNotes,
      (val % 12 = 11 →
        val / 12 * 12 + 10 = val - 1 ∧
        quantizeToMinor val = tuningValues.getD (val - 1) 0 ∧
        quantizeToPhrygian val = tuningValues.getD (val - 1) 0 ∧
        quantizeToMinor val < tuningValues.getD val 0 ∧
        quantizeToPhrygian val < tuningValues.getD val 0 ∧
        tuningValues.getD val 0 ≤ quantizeToMajor val) ∧
      (val % 12 ≠ 11 →
        tuningValues.getD val 0 ≤ quantizeToMajor val ∧
        tuningValues.getD val 0 ≤ quantizeToMinor val ∧
        tuningValues.getD val 0 ≤ quantizeToPhrygian val) := by
  decide

/-- Witness for C9 at `val = 11`, the first top-of-octave input. -/
theorem top_semitone_rounds_down_witness :
    11 / 12 * 12 + 10 = 11 - 1 ∧
    quantizeToMinor 11 = tuningValues.getD (11 - 1) 0 ∧
    quantizeToPhrygian 11 = tuningValues.getD (11 - 1) 0 ∧
    quantizeToMinor 11 < tuningValues.getD 11 0 ∧
    quantizeToPhrygian 11 < tuningValues.getD 11 0 ∧
    tuningValues.getD 11 0 ≤ quantizeToMajor 11 :=
  (top_semitone_rounds_down 11 (by decide)).1 (by decide)

/-- C10: on every in-range input whose semitone is neither 1 nor 2, the
minor and Phrygian quantizers agree; their offset sets coincide at or
above 3 and both contain 0. -/
theorem minor_phrygian_agree :
    (∀ val < totalNotes, val % 12 ≠ 1 → val % 12 ≠ 2 →
      quantizeToMinor val = quantizeToPhrygian val) ∧
    minorSteps.filter (fun o => decide (3 ≤ o)) =
      phrygianSteps.filter (fun o => decide (3 ≤ o)) ∧
    0 ∈ minorSteps ∧ 0 ∈ phrygianSteps := by
  decide

/-- Witness for C10 at `val = 11`, a fallback input for both scales. -/
theorem minor_phrygian_agree_witness :
    quantizeToMinor 11 = quantizeToPhrygian 11 :=
  minor_phrygian_agree.1 11 (by decide) (by decide) (by decide)
